import Mathlib

/-!
Verification of the Memory-Atlas photo organizer backend
(`src/backend/main.py`) against its natural-language specification.

The backend is a FastAPI service whose state is a directory tree rooted at
`BASE_PATH`.  We embed that tree shallowly: a filesystem is an association
list from paths (lists of name segments, relative to `BASE_PATH`; the empty
list denotes `BASE_PATH` itself) to entries (a regular file with its
modification time and size, or a directory).  The association-list order
models the unspecified "filesystem-native" iteration order of
`Path.iterdir()`.  Each utility function (`makeFolder`, `sortDate`,
`moveFolder`, `viewFolder`) and each route handler is translated to a Lean
function over this state; Python exceptions become an explicit error type,
and FastAPI `HTTPException`s raised out of a handler become an
`HttpFailure` (status code plus detail string).
-/

namespace MemoryAtlas

/-- A filesystem entry: a regular file (with POSIX modification time and
size in bytes) or a directory. -/
inductive FEntry where
  | file (mtime : Nat) (size : Nat)
  | dir
deriving DecidableEq, Repr

/-- The directory tree under `BASE_PATH`, as an association list from path
(list of segments; `[]` is `BASE_PATH` itself) to entry.  List order models
filesystem iteration order; new entries are appended at the end. -/
structure FS where
  entries : List (List String × FEntry)
deriving DecidableEq, Repr

/-- Lookup of a path, first match wins (paths are kept unique by
construction). -/
def FS.lookup (fs : FS) (p : List String) : Option FEntry :=
  (fs.entries.find? (fun e => decide (e.1 = p))).map (fun e => e.2)

/-- `Path.exists()`. -/
def FS.pathExists (fs : FS) (p : List String) : Bool :=
  (fs.lookup p).isSome

/-- `Path.is_dir()`. -/
def FS.isDir (fs : FS) (p : List String) : Bool :=
  fs.lookup p = some FEntry.dir

/-- `Path.is_file()`. -/
def FS.isFile (fs : FS) (p : List String) : Bool :=
  match fs.lookup p with
  | some (FEntry.file _ _) => true
  | _ => false

/-- `os.path.getmtime` / `stat().st_mtime` (0 when missing; only used on
existing files). -/
def FS.getMtime (fs : FS) (p : List String) : Nat :=
  match fs.lookup p with
  | some (FEntry.file t _) => t
  | _ => 0

/-- `stat().st_size` (0 when missing; only used on existing files). -/
def FS.getSize (fs : FS) (p : List String) : Nat :=
  match fs.lookup p with
  | some (FEntry.file _ s) => s
  | _ => 0

/-- The name of `k` when `k` is a direct child of directory path `p`. -/
def childName? (p k : List String) : Option String :=
  if k.take p.length = p ∧ k.length = p.length + 1 then k.getLast? else none

/-- `Path.iterdir()`: names of the direct children of `p`, in filesystem
iteration order. -/
def FS.iterdir (fs : FS) (p : List String) : List String :=
  fs.entries.filterMap (fun e => childName? p e.1)

/-- Append a new entry at the end (the model's position for a freshly
created name). -/
def FS.insert (fs : FS) (p : List String) (e : FEntry) : FS :=
  ⟨fs.entries ++ [(p, e)]⟩

/-- Create one directory if its path is not already taken
(`mkdir(exist_ok=True)` for a single level). -/
def FS.mkdirOne (fs : FS) (p : List String) : FS :=
  if fs.pathExists p then fs else fs.insert p FEntry.dir

/-- `Path.mkdir(parents=True, exist_ok=True)`: create every missing
ancestor of `p` (including `p` itself), shortest first. -/
def FS.mkdirParents (fs : FS) (p : List String) : FS :=
  ((List.range (p.length + 1)).map (fun i => p.take i)).foldl FS.mkdirOne fs

/-- Remove the entry at path `p` (if present). -/
def FS.erase (fs : FS) (p : List String) : FS :=
  ⟨fs.entries.filter (fun e => !decide (e.1 = p))⟩

/-- `os.rename` / `shutil.move` within the tree: the entry (with its mtime
and size) moves from `old` to `new`; the new name appears at the end of
iteration order.  No-op when `old` is missing (the callers check first). -/
def FS.rename (fs : FS) (old new : List String) : FS :=
  match fs.lookup old with
  | none => fs
  | some e => (fs.erase old).insert new e

/-! ### Python string primitives used by the source -/

/-- `str.startswith(pre)`. -/
def pyStartswith (s pre : String) : Bool :=
  pre.data.isPrefixOf s.data

/-- `pathlib.PurePath.suffix`: the extension of the final component, from
its last dot, and empty when the name has no dot, starts with its only dot,
or ends with the dot. -/
def pySuffix (name : String) : String :=
  let cs := name.data
  let n := cs.length
  let dotIdxs := (List.range n).filter (fun i => decide (cs.getD i ' ' = '.'))
  match dotIdxs.getLast? with
  | some i => if 0 < i ∧ i < n - 1 then String.mk (cs.drop i) else ""
  | none => ""

/-- `pathlib.PurePath.stem`: the final component without its suffix. -/
def pyStem (name : String) : String :=
  String.mk (name.data.take (name.data.length - (pySuffix name).data.length))

/-- `str.isdigit()` restricted to ASCII names: nonempty and all digits. -/
def pyIsdigit (s : String) : Bool :=
  decide (s.length ≠ 0) && s.data.all Char.isDigit

/-- `int(s)` for a string of digits. -/
def pyInt (s : String) : Nat :=
  s.data.foldl (fun a c => a * 10 + (c.toNat - Char.toNat '0')) 0

/-- `str.lower()` for the ASCII names this service handles. -/
def pyLower (s : String) : String :=
  String.mk (s.data.map Char.toLower)

/-- `str.replace(" ", "_")`: for a one-character pattern and one-character
replacement, Python replace is exactly a character-wise substitution. -/
def pyReplaceSpace (s : String) : String :=
  String.mk (s.data.map (fun c => if c = ' ' then '_' else c))

/-- The Python format `f"{n:03d}"` for nonnegative `n`. -/
def pad3 (n : Nat) : String :=
  let s := toString n
  if s.length < 3 then String.mk (List.replicate (3 - s.length) '0') ++ s else s

/-! ### Exceptions and HTTP failures -/

/-- The Python exceptions that can arise in the translated code.  FastAPI's
`HTTPException` is itself a subclass of `Exception`, so it is a constructor
here: an `except Exception` clause catches it like any other. -/
inductive PyExc where
  | fileNotFound (msg : String)
  | typeError (msg : String)
  | attributeError (msg : String)
  | notADirectory (msg : String)
  | httpExc (status : Nat) (detail : String)
deriving DecidableEq, Repr

/-- `str(e)` for each exception.  For Starlette/FastAPI `HTTPException`
this is `f"{self.status_code}: {self.detail}"`. -/
def pyExcStr : PyExc → String
  | PyExc.fileNotFound m => m
  | PyExc.typeError m => m
  | PyExc.attributeError m => m
  | PyExc.notADirectory m => m
  | PyExc.httpExc s d => toString s ++ ": " ++ d

/-- An `HTTPException` escaping a handler: HTTP status code and `detail`
string of the JSON error body. -/
structure HttpFailure where
  status : Nat
  detail : String
deriving DecidableEq, Repr

/-! ### Request and response models (the Pydantic models of main.py) -/

/-- `FolderRequest` (main.py lines 33-36). -/
structure FolderRequest where
  country : String
  city : String
  year : Int
deriving DecidableEq, Repr

/-- `MoveImageRequest` (main.py lines 37-42). -/
structure MoveImageRequest where
  imageId : String
  country : String
  city : String
  year : Int
  sourceFolder : String
deriving DecidableEq, Repr

/-- One element of the `viewFolder` result (the `ImageResponse` model,
main.py lines 43-50).  `created_at` holds the POSIX mtime; the source
renders it as `datetime.fromtimestamp(st_mtime).isoformat()`, a pure
injective formatting of this value. -/
structure ImageEntry where
  id : String
  name : String
  url : String
  year : Int
  location : String
  file_size : Nat
  created_at : Nat
deriving DecidableEq, Repr

/-- `PinData` (main.py lines 55-62).  `lat`/`lng` are the literal `0.0`,
modelled as rationals. -/
structure PinData where
  id : String
  country : String
  city : String
  lat : ℚ
  lng : ℚ
  year : Int
  imageCount : Nat
deriving DecidableEq, Repr

/-! ### Path resolution -/

/-- `BASE_PATH / str(year) / country / city` (relative to `BASE_PATH`). -/
def resolvePath (year : Int) (country city : String) : List String :=
  [toString year, country, city]

/-! ### makeFolder (main.py lines 269-281) -/

/-- `makeFolder(country, city, year)`: `folder_path.mkdir(parents=True,
exist_ok=True)`, returning the new state and the folder path. -/
def makeFolder (country city : String) (year : Int) (fs : FS) :
    FS × List String :=
  (fs.mkdirParents (resolvePath year country city),
    resolvePath year country city)

/-! ### viewFolder (main.py lines 345-375) -/

/-- The allowed image extensions of main.py line 360. -/
def imageExts : List String :=
  [".jpg", ".jpeg", ".png", ".gif", ".bmp", ".webp"]

/-- `viewFolder(country, city, year)`: when the resolved folder exists and
is a directory, list its direct children that are regular files with an
allowed extension (case-insensitive), with their metadata; otherwise the
empty list. -/
def viewFolder (country city : String) (year : Int) (fs : FS) :
    List ImageEntry :=
  if fs.pathExists (resolvePath year country city) &&
      fs.isDir (resolvePath year country city) then
    (fs.iterdir (resolvePath year country city)).filterMap (fun n =>
      if fs.isFile (resolvePath year country city ++ [n]) &&
          imageExts.contains (pyLower (pySuffix n)) then
        some
          { id := n
            name := n
            url := "/api/serve-image/" ++ toString year ++ "/" ++ country
              ++ "/" ++ city ++ "/" ++ n
            year := year
            location := city
            file_size := fs.getSize (resolvePath year country city ++ [n])
            created_at := fs.getMtime (resolvePath year country city ++ [n]) }
      else none)
  else []

/-! ### sortDate (main.py lines 284-311) -/

/-- A stable insertion sort on a `Nat` key: `list.sort(key=...)` in Python
is stable, and a stable sort's result is unique, so any stable sort models
it. -/
def insertByKey (key : α → Nat) (x : α) : List α → List α
  | [] => [x]
  | y :: ys => if key x ≤ key y then x :: y :: ys else y :: insertByKey key x ys

/-- Stable sort by a `Nat` key (models `files.sort(key=lambda x:
os.path.getmtime(x))`). -/
def sortByKey (key : α → Nat) : List α → List α
  | [] => []
  | x :: xs => insertByKey key x (sortByKey key xs)

/-- The `while new_file_path.exists()` loop of main.py lines 305-309: given
the 1-based position `i1` and the original name, try
`f"{i1:03d}_{origName}"` first, then `f"{i1:03d}_{counter}_{origName}"`
for `counter = 1, 2, ...` until the name is free in directory `path`.
Fuel bounds the search; `fs.entries.length + 1` attempts always reach a
free name since the candidates are pairwise distinct. -/
def freshNameGo (fs : FS) (path : List String) (i1 : Nat) (origName : String) :
    Nat → Nat → String → String
  | 0, _, cur => cur
  | fuel + 1, counter, cur =>
    if fs.pathExists (path ++ [cur]) then
      freshNameGo fs path i1 origName fuel (counter + 1)
        (pad3 i1 ++ "_" ++ (toString counter ++ "_" ++ origName))
    else cur

/-- The conflict-resolved new name for the file in position `i1` (1-based):
main.py lines 302-309. -/
def freshName (fs : FS) (path : List String) (i1 : Nat) (origName : String) :
    String :=
  freshNameGo fs path i1 origName (fs.entries.length + 1) 1
    (pad3 i1 ++ "_" ++ origName)

/-- One iteration of the rename loop of main.py lines 299-311, for the file
named `name` at 0-based sorted position `i`: skip when the name already
starts with `f"{i+1:03d}_"`, otherwise rename it to the conflict-resolved
prefixed name. -/
def sortStep (path : List String) (i : Nat) (fs : FS) (name : String) : FS :=
  if pyStartswith name (pad3 (i + 1) ++ "_") then fs
  else fs.rename (path ++ [name]) (path ++ [freshName fs path (i + 1) name])

/-- The rename loop over the sorted file names, threading the mutating
filesystem state. -/
def sortRenamesFrom (path : List String) : Nat → FS → List String → FS
  | _, fs, [] => fs
  | i, fs, n :: ns => sortRenamesFrom path (i + 1) (sortStep path i fs n) ns

/-- `sortDate(path)` (main.py lines 284-311): raise `FileNotFoundError`
when the path does not exist (and `NotADirectoryError` from `iterdir` when
it exists but is not a directory); otherwise rename the directory's regular
files, ordered by modification time ascending (stable on ties), to carry
1-based 3-digit position prefixes. -/
def sortDate (fs : FS) (path : List String) : Except PyExc FS :=
  if fs.pathExists path = false then
    Except.error (PyExc.fileNotFound ("Directory " ++ String.intercalate "/" path
      ++ " does not exist"))
  else if fs.isDir path = false then
    Except.error (PyExc.notADirectory ("Not a directory: "
      ++ String.intercalate "/" path))
  else
    let files := (fs.iterdir path).filter (fun n => fs.isFile (path ++ [n]))
    let sortedFiles := sortByKey (fun n => fs.getMtime (path ++ [n])) files
    Except.ok (sortRenamesFrom path 0 fs sortedFiles)

/-! ### moveFolder (main.py lines 314-342) -/

/-- The positional parameter list of
`def moveFolder(imageId, destination_folder, sourceFolder)`
(main.py line 314). -/
def moveFolder_params : List String :=
  ["imageId", "destination_folder", "sourceFolder"]

/-- The positional argument list of the call `moveFolder(request.imageId,
request.country, request.city, request.year, request.sourceFolder)` in the
`move_image` handler (main.py line 121). -/
def move_image_callArgs : List String :=
  ["request.imageId", "request.country", "request.city", "request.year",
   "request.sourceFolder"]

/-- `moveFolder` as written (main.py lines 314-342), with
`destination_folder` the `str` it is annotated as and would be bound to by
any positional call.  After `source_path = Path(sourceFolder) / imageId`
(a pure path computation), the first statement executed is
`destination_folder.exists()` (line 325); a Python `str` has no attribute
`exists`, so this raises `AttributeError` and the function returns without
touching the filesystem. -/
def moveFolder_asWritten (imageId destination_folder sourceFolder : String)
    (fs : FS) : (Except PyExc Unit) × FS :=
  (Except.error (PyExc.attributeError ("str object has no attribute exists: "
    ++ destination_folder ++ " " ++ imageId ++ " " ++ sourceFolder)), fs)

/-- The `while destination_path.exists()` loop of main.py lines 331-336:
candidates are `imageId` itself, then `f"{stem}_{counter}{suffix}"` for
`counter = 1, 2, ...` (stem and suffix of `imageId`), until the name is
free in `dest`.  Fuel as in `freshNameGo`. -/
def moveFreshGo (fs : FS) (dest : List String) (imageId : String) :
    Nat → Nat → String → String
  | 0, _, cur => cur
  | fuel + 1, counter, cur =>
    if fs.pathExists (dest ++ [cur]) then
      moveFreshGo fs dest imageId fuel (counter + 1)
        (pyStem imageId ++ "_" ++ (toString counter ++ pySuffix imageId))
    else cur

/-- Conflict-resolved destination name for `moveFolder` (main.py lines
328-336). -/
def moveFresh (fs : FS) (dest : List String) (imageId : String) : String :=
  moveFreshGo fs dest imageId (fs.entries.length + 1) 1 imageId

/-- The body of `moveFolder` (main.py lines 314-342) as it executes when
`destination_folder` is a `Path`, which is what every statement of the body
(`.exists()`, `.mkdir(parents=True, exist_ok=True)`, the `/` operator)
requires — as actually called the argument is a `str` and the body dies on
its first statement (see `moveFolder_asWritten`).  Faithful to the source
order: the destination directory is created (if absent) and the
conflict-resolved destination name computed **before** the source file
existence check, so a missing source still leaves the created destination
directory behind. -/
def moveFolderPathDest (imageId : String)
    (destination_folder sourceFolder : List String) (fs : FS) :
    (Except PyExc Unit) × FS :=
  let source_path := sourceFolder ++ [imageId]
  let fs1 :=
    if fs.pathExists destination_folder then fs
    else fs.mkdirParents destination_folder
  let destination_path := destination_folder ++ [moveFresh fs1 destination_folder imageId]
  if fs1.pathExists source_path = false then
    (Except.error (PyExc.fileNotFound ("Source file " ++ imageId
      ++ " not found in " ++ String.intercalate "/" sourceFolder)), fs1)
  else
    (Except.ok (), fs1.rename source_path destination_path)

/-! ### get_all_pins (main.py lines 202-241) -/

/-- The directory walk of the `get_all_pins` handler (main.py lines
209-239): empty when `BASE_PATH` does not exist; first-level directories
whose names are not all digits are skipped; every
year/country/city directory yields one `PinData` whose `id` is
`f"{country}_{city}_{year}".replace(" ", "_")`, whose coordinates are the
literal `0.0`, and whose `imageCount` counts the regular files directly in
the city directory. -/
def get_all_pins_core (fs : FS) : List PinData :=
  if fs.pathExists [] = false then []
  else
    ((fs.iterdir []).filter
        (fun yn => fs.isDir [yn] && pyIsdigit yn)).flatMap (fun yn =>
      let year : Int := pyInt yn
      ((fs.iterdir [yn]).filter
          (fun cn => fs.isDir [yn, cn])).flatMap (fun cn =>
        ((fs.iterdir [yn, cn]).filter
            (fun tn => fs.isDir [yn, cn, tn])).map (fun tn =>
          let image_count :=
            ((fs.iterdir [yn, cn, tn]).filter
              (fun f => fs.isFile [yn, cn, tn, f])).length
          { id := pyReplaceSpace (cn ++ "_" ++ tn ++ "_" ++ toString year)
            country := cn
            city := tn
            lat := 0
            lng := 0
            year := year
            imageCount := image_count })))

/-! ### Route handlers

Each handler returns the outcome visible at the HTTP boundary (`Except
HttpFailure` of the success payload) together with the filesystem after the
request. -/

/-- Detail string of the `TypeError` raised by the 5-argument call to the
3-parameter `moveFolder`. -/
def typeErrorDetail : String :=
  "moveFolder() takes 3 positional arguments but 5 were given"

/-- `move_image` handler (main.py lines 111-129).  Line 121 calls
`moveFolder(request.imageId, request.country, request.city, request.year,
request.sourceFolder)` — `move_image_callArgs.length = 5` positional
arguments against the `moveFolder_params.length = 3` positional parameters
of `def moveFolder(imageId, destination_folder, sourceFolder)` (line 314).
Python raises `TypeError` at the call, before any statement of
`moveFolder` runs, so the filesystem is untouched.  `TypeError` does not
match the `except FileNotFoundError` clause (which would give 404), so the
`except Exception` clause maps it to `HTTPException(500)`. -/
def move_image (req : MoveImageRequest) (fs : FS) :
    (Except HttpFailure String) × FS :=
  let callResult : Except PyExc Unit :=
    Except.error (PyExc.typeError typeErrorDetail)
  match callResult with
  | Except.ok _ =>
    (Except.ok ("Successfully moved " ++ req.imageId ++ " to " ++ req.city
      ++ ", " ++ req.country ++ " (" ++ toString req.year ++ ")"), fs)
  | Except.error (PyExc.fileNotFound m) =>
    (Except.error ⟨404, m⟩, fs)
  | Except.error e =>
    (Except.error ⟨500, "Failed to move image: " ++ pyExcStr e⟩, fs)

/-- `get_images` handler (main.py lines 93-108): returns
`viewFolder(country, city, year)`.  In this model `viewFolder` is total, so
the `except Exception` 500 branch is unreachable. -/
def get_images (year : Int) (country city : String) (fs : FS) :
    Except HttpFailure (List ImageEntry) :=
  Except.ok (viewFolder country city year fs)

/-- `sort_folder_by_date` handler (main.py lines 132-152).  The body raises
`HTTPException(404, "Folder not found")` when the resolved folder does not
exist, and otherwise calls `sortDate`; but the raise happens **inside** the
`try`, and FastAPI's `HTTPException` is a subclass of `Exception`, so the
`except Exception as e` clause catches it (like any `sortDate` error) and
raises `HTTPException(500, f"Failed to sort folder: {str(e)}")` instead. -/
def sort_folder_by_date (req : FolderRequest) (fs : FS) :
    (Except HttpFailure String) × FS :=
  let folder_path := resolvePath req.year req.country req.city
  let body : Except PyExc FS :=
    if fs.pathExists folder_path = false then
      Except.error (PyExc.httpExc 404 "Folder not found")
    else
      sortDate fs folder_path
  match body with
  | Except.ok fs2 =>
    (Except.ok ("Successfully sorted images in " ++ req.city ++ ", "
      ++ req.country ++ " (" ++ toString req.year ++ ")"), fs2)
  | Except.error e =>
    (Except.error ⟨500, "Failed to sort folder: " ++ pyExcStr e⟩, fs)

/-- `serve_image` handler (main.py lines 244-263).  As in
`sort_folder_by_date`, the `HTTPException(404, "Image not found")` raised
for a missing file is caught by the handler's own `except Exception` clause
and replaced by a 500.  On success the response is the file at the resolved
path (modelled by the path itself). -/
def serve_image (year : Int) (country city filename : String) (fs : FS) :
    Except HttpFailure (List String) :=
  let file_path := resolvePath year country city ++ [filename]
  let body : Except PyExc (List String) :=
    if fs.pathExists file_path = false then
      Except.error (PyExc.httpExc 404 "Image not found")
    else
      Except.ok file_path
  match body with
  | Except.ok r => Except.ok r
  | Except.error e =>
    Except.error ⟨500, "Failed to serve image: " ++ pyExcStr e⟩

/-- `create_folder` handler (main.py lines 73-90): `makeFolder` then a
success response with the folder path.  In this model `makeFolder` is
total, so the 500 branch is unreachable. -/
def create_folder (req : FolderRequest) (fs : FS) :
    (Except HttpFailure (List String)) × FS :=
  let r := makeFolder req.country req.city req.year fs
  (Except.ok r.2, r.1)

/-! ### Concrete states used by the theorems -/

/-- No filesystem at all: even `BASE_PATH` is missing. -/
def fsEmpty : FS := ⟨[]⟩

/-- `BASE_PATH` exists and is empty. -/
def fsRootOnly : FS := ⟨[([], FEntry.dir)]⟩

/-- `BASE_PATH/2023/France/Paris` exists and is empty. -/
def fsParisEmpty : FS :=
  ⟨[([], FEntry.dir), (["2023"], FEntry.dir), (["2023", "France"], FEntry.dir),
    (["2023", "France", "Paris"], FEntry.dir)]⟩

/-- A move-image request whose source file does not exist anywhere. -/
def reqMissingSource : MoveImageRequest :=
  ⟨"ghost.jpg", "France", "Paris", 2023, "/content/2022/France/Paris"⟩

/-- A directory `d` of three regular files with distinct modification
times, iterated in an order different from mtime order. -/
def fsSort3 : FS :=
  ⟨[(["d"], FEntry.dir),
    (["d", "c.jpg"], FEntry.file 30 3),
    (["d", "a.jpg"], FEntry.file 10 1),
    (["d", "b.jpg"], FEntry.file 20 2)]⟩

/-- A directory whose files carry numeric prefixes from a prior sort that
do not match their newly assigned positions. -/
def fsSortPrefixed : FS :=
  ⟨[(["d"], FEntry.dir),
    (["d", "001_x.jpg"], FEntry.file 20 1),
    (["d", "002_y.jpg"], FEntry.file 10 1)]⟩

/-- A directory where the target prefixed name of the oldest file is
already taken by another file. -/
def fsSortCollide : FS :=
  ⟨[(["d"], FEntry.dir),
    (["d", "a.jpg"], FEntry.file 10 1),
    (["d", "001_a.jpg"], FEntry.file 20 1)]⟩

/-- `2023/France/Paris` containing exactly `a.txt` and `b.jpg`. -/
def fsMixed : FS :=
  ⟨[([], FEntry.dir), (["2023"], FEntry.dir), (["2023", "France"], FEntry.dir),
    (["2023", "France", "Paris"], FEntry.dir),
    (["2023", "France", "Paris", "a.txt"], FEntry.file 5 100),
    (["2023", "France", "Paris", "b.jpg"], FEntry.file 7 200)]⟩

/-- A storage root with a non-numeric first-level directory (holding a
subdirectory and a file) and `2023/France/Paris` with 5 files. -/
def fsPins : FS :=
  ⟨[([], FEntry.dir),
    (["static"], FEntry.dir), (["static", "css"], FEntry.dir),
    (["static", "css", "style.css"], FEntry.file 1 1),
    (["2023"], FEntry.dir), (["2023", "France"], FEntry.dir),
    (["2023", "France", "Paris"], FEntry.dir),
    (["2023", "France", "Paris", "p1.jpg"], FEntry.file 1 10),
    (["2023", "France", "Paris", "p2.jpg"], FEntry.file 2 10),
    (["2023", "France", "Paris", "p3.png"], FEntry.file 3 10),
    (["2023", "France", "Paris", "p4.gif"], FEntry.file 4 10),
    (["2023", "France", "Paris", "notes.txt"], FEntry.file 5 10)]⟩

/-- A storage root with a country name containing a space. -/
def fsPinsSpace : FS :=
  ⟨[([], FEntry.dir),
    (["2024"], FEntry.dir), (["2024", "New Zealand"], FEntry.dir),
    (["2024", "New Zealand", "Wellington"], FEntry.dir)]⟩

/-- Source folder `2023/Italy/Rome` holding `pic.jpg`; destination folder
`2024/Italy/Rome` already holding a different file that is also named
`pic.jpg`. -/
def fsMoveConflict : FS :=
  ⟨[([], FEntry.dir),
    (["2023"], FEntry.dir), (["2023", "Italy"], FEntry.dir),
    (["2023", "Italy", "Rome"], FEntry.dir),
    (["2023", "Italy", "Rome", "pic.jpg"], FEntry.file 10 111),
    (["2024"], FEntry.dir), (["2024", "Italy"], FEntry.dir),
    (["2024", "Italy", "Rome"], FEntry.dir),
    (["2024", "Italy", "Rome", "pic.jpg"], FEntry.file 20 222)]⟩

/-! ### Helper lemmas -/

theorem strData_append (a b : String) : (a ++ b).data = a.data ++ b.data := rfl

theorem isPrefixOf_append_self {α : Type} [BEq α] [LawfulBEq α]
    (l t : List α) : l.isPrefixOf (l ++ t) = true := by
  induction l with
  | nil => simp
  | cons a l ih => simp [ih]

/-- A string of the form `pre ++ v` starts with `pre`. -/
theorem pyStartswith_append (pre v : String) :
    pyStartswith (pre ++ v) pre = true := by
  unfold pyStartswith
  rw [strData_append]
  exact isPrefixOf_append_self pre.data v.data

theorem find?_append_strfs (p : (List String × FEntry) → Bool)
    (l1 l2 : List (List String × FEntry)) :
    (l1 ++ l2).find? p = ((l1.find? p).orElse (fun _ => l2.find? p)) := by
  induction l1 with
  | nil => rfl
  | cons a l ih =>
    by_cases h : p a = true
    · simp [List.find?_cons_of_pos _ h, h]
    · rw [Bool.not_eq_true] at h
      simp [List.find?_cons_of_neg, h, ih]

/-- Every name produced by the conflict loop of `sortDate` carries the
numeric prefix of its position. -/
theorem freshNameGo_shape (fs : FS) (path : List String) (i1 : Nat)
    (origName : String) :
    ∀ (fuel counter : Nat) (u : String),
      ∃ v, freshNameGo fs path i1 origName fuel counter (pad3 i1 ++ "_" ++ u) =
        pad3 i1 ++ "_" ++ v := by
  intro fuel
  induction fuel with
  | zero => exact fun counter u => ⟨u, rfl⟩
  | succ fuel ih =>
    intro counter u
    by_cases h : fs.pathExists (path ++ [pad3 i1 ++ "_" ++ u]) = true
    · simp only [freshNameGo, h, if_true]
      exact ih (counter + 1) (toString counter ++ "_" ++ origName)
    · simp only [freshNameGo, h, if_false]
      exact ⟨u, rfl⟩

theorem freshName_shape (fs : FS) (path : List String) (i1 : Nat)
    (origName : String) :
    ∃ v, freshName fs path i1 origName = pad3 i1 ++ "_" ++ v :=
  freshNameGo_shape fs path i1 origName (fs.entries.length + 1) 1 origName

/-- After a rename away from `old` (to a different path), `old` is gone. -/
theorem lookup_rename_old (fs : FS) (old new : List String) (e : FEntry)
    (hl : fs.lookup old = some e) (hne : new ≠ old) :
    (fs.rename old new).lookup old = none := by
  unfold FS.rename
  rw [hl]
  show FS.lookup ⟨(fs.erase old).entries ++ [(new, e)]⟩ old = none
  unfold FS.lookup
  rw [find?_append_strfs]
  have h1 : ((fs.erase old).entries.find? (fun x => decide (x.1 = old))) = none := by
    rw [List.find?_eq_none]
    intro x hx
    have h2 := (List.mem_filter.1 hx).2
    simp only [Bool.not_eq_true', decide_eq_false_iff_not] at h2
    simpa using h2
  rw [h1]
  simp [List.find?, hne]

theorem pathExists_eq_find (fs : FS) (p : List String) :
    fs.pathExists p = (fs.entries.find? (fun e => decide (e.1 = p))).isSome := by
  unfold FS.pathExists FS.lookup
  cases fs.entries.find? (fun e => decide (e.1 = p)) <;> rfl

theorem pathExists_insert (fs : FS) (q r : List String) (x : FEntry)
    (h : fs.pathExists r = true) : (fs.insert q x).pathExists r = true := by
  rw [pathExists_eq_find] at h ⊢
  unfold FS.insert
  rw [find?_append_strfs]
  cases hf : fs.entries.find? (fun e => decide (e.1 = r)) with
  | none => rw [hf] at h; simp at h
  | some a => simp [hf]

theorem mkdirOne_preserve (fs : FS) (q r : List String)
    (h : fs.pathExists r = true) : (fs.mkdirOne q).pathExists r = true := by
  unfold FS.mkdirOne
  split
  · exact h
  · exact pathExists_insert fs q r FEntry.dir h

theorem mkdirOne_noop (fs : FS) (q : List String)
    (h : fs.pathExists q = true) : fs.mkdirOne q = fs := by
  unfold FS.mkdirOne
  simp [h]

theorem mkdirOne_creates (fs : FS) (q : List String) :
    (fs.mkdirOne q).pathExists q = true := by
  by_cases h : fs.pathExists q = true
  · rw [mkdirOne_noop fs q h]
    exact h
  · rw [Bool.not_eq_true] at h
    have hmk : fs.mkdirOne q = fs.insert q FEntry.dir := by
      unfold FS.mkdirOne
      rw [h]
      simp
    rw [hmk, pathExists_eq_find]
    unfold FS.insert
    rw [find?_append_strfs]
    have hf : fs.entries.find? (fun e => decide (e.1 = q)) = none := by
      rw [pathExists_eq_find] at h
      cases hx : fs.entries.find? (fun e => decide (e.1 = q)) with
      | none => rfl
      | some a => rw [hx] at h; simp at h
    rw [hf]
    simp [List.find?]

theorem foldl_mkdir_preserve (l : List (List String)) :
    ∀ (fs : FS) (r : List String), fs.pathExists r = true →
      (l.foldl FS.mkdirOne fs).pathExists r = true := by
  induction l with
  | nil => exact fun fs r h => h
  | cons q l ih =>
    intro fs r h
    exact ih (fs.mkdirOne q) r (mkdirOne_preserve fs q r h)

theorem foldl_mkdir_creates (l : List (List String)) :
    ∀ (fs : FS) (q : List String), q ∈ l →
      (l.foldl FS.mkdirOne fs).pathExists q = true := by
  induction l with
  | nil => intro fs q h; cases h
  | cons a l ih =>
    intro fs q h
    rcases List.mem_cons.1 h with h | h
    · subst h
      exact foldl_mkdir_preserve l (fs.mkdirOne q) q (mkdirOne_creates fs q)
    · exact ih (fs.mkdirOne a) q h

theorem foldl_mkdir_noop (l : List (List String)) :
    ∀ fs : FS, (∀ q ∈ l, fs.pathExists q = true) →
      l.foldl FS.mkdirOne fs = fs := by
  induction l with
  | nil => exact fun fs _ => rfl
  | cons a l ih =>
    intro fs h
    have ha := mkdirOne_noop fs a (h a (List.mem_cons_self a l))
    rw [List.foldl_cons, ha]
    exact ih fs (fun q hq => h q (List.mem_cons_of_mem a hq))

theorem iterdir_insert_ne (fs : FS) (q p : List String) (x : FEntry)
    (h : q.length ≠ p.length + 1) : (fs.insert q x).iterdir p = fs.iterdir p := by
  unfold FS.insert FS.iterdir
  rw [List.filterMap_append]
  have hc : childName? p q = none := by
    unfold childName?
    exact if_neg (fun hcond => h hcond.2)
  simp [hc]

theorem mkdirOne_iterdir (fs : FS) (q p : List String)
    (h : q.length ≠ p.length + 1) : (fs.mkdirOne q).iterdir p = fs.iterdir p := by
  unfold FS.mkdirOne
  split
  · rfl
  · exact iterdir_insert_ne fs q p FEntry.dir h

theorem foldl_mkdir_iterdir (l : List (List String)) :
    ∀ (fs : FS) (p : List String), (∀ q ∈ l, q.length ≠ p.length + 1) →
      (l.foldl FS.mkdirOne fs).iterdir p = fs.iterdir p := by
  induction l with
  | nil => exact fun fs p _ => rfl
  | cons a l ih =>
    intro fs p h
    rw [List.foldl_cons, ih (fs.mkdirOne a) p (fun q hq => h q (List.mem_cons_of_mem a hq)),
      mkdirOne_iterdir fs a p (h a (List.mem_cons_self a l))]

/-- The paths created by `mkdirParents p` are the take-prefixes of `p`; each
is at most as long as `p`, hence never a direct child of `p`. -/
theorem mkdirParents_iterdir (fs : FS) (p : List String) :
    (fs.mkdirParents p).iterdir p = fs.iterdir p := by
  unfold FS.mkdirParents
  apply foldl_mkdir_iterdir
  intro q hq
  rcases List.mem_map.1 hq with ⟨i, hi, hqi⟩
  subst hqi
  have : (p.take i).length ≤ p.length := by
    rw [List.length_take]
    omega
  omega

theorem mkdirParents_idem (fs : FS) (p : List String) :
    (fs.mkdirParents p).mkdirParents p = fs.mkdirParents p := by
  unfold FS.mkdirParents
  apply foldl_mkdir_noop
  intro q hq
  exact foldl_mkdir_creates _ fs q hq

/-! ### Claim theorems -/

/-- C2: every POST /api/move-image request, regardless of input, responds
with HTTP 500 and never succeeds and never returns 404: the handler passes
5 positional arguments to the 3-parameter `moveFolder`, so every call
raises a TypeError mapped to 500 by the generic exception clause; moreover
`moveFolder` itself calls `.exists()` / `.mkdir()` on its `str`-typed
`destination_folder`, so even a 3-argument call would raise
AttributeError (also mapped to 500) without touching the filesystem. -/
theorem move_image_always_500 :
    moveFolder_params.length = 3 ∧ move_image_callArgs.length = 5 ∧
    (∀ (req : MoveImageRequest) (fs : FS),
      move_image req fs =
        (Except.error ⟨500, "Failed to move image: " ++ typeErrorDetail⟩, fs)) ∧
    (∀ (imageId destination_folder sourceFolder : String) (fs : FS),
      ∃ msg, moveFolder_asWritten imageId destination_folder sourceFolder fs =
        (Except.error (PyExc.attributeError msg), fs)) :=
  ⟨rfl, rfl, fun _ _ => rfl, fun _ _ _ _ => ⟨_, rfl⟩⟩

/-- C1: the spec demands that moving a missing source file fail with
NotFound mapped to 404 and leave both folders unchanged.  Evaluating the
handler at such a request: the folders are indeed unchanged, but the
response is 500 (the TypeError of the 5-vs-3-argument call to
`moveFolder`), never the specified 404 — the `except FileNotFoundError`
branch of the handler is unreachable. -/
theorem move_image_missing_source_reports_500 :
    move_image reqMissingSource fsParisEmpty =
      (Except.error ⟨500, "Failed to move image: " ++ typeErrorDetail⟩,
        fsParisEmpty) := rfl

/-- C3: the spec demands 404 when the folder named by POST
/api/sort-folder does not exist.  The handler does raise
`HTTPException(404, "Folder not found")`, but inside its own `try`; the
`except Exception` clause catches it (HTTPException is an Exception) and
replaces it with a 500 whose detail wraps the 404 message.  So every such
request yields 500, not 404. -/
theorem sort_folder_missing_folder_reports_500
    (req : FolderRequest) (fs : FS)
    (h : fs.pathExists (resolvePath req.year req.country req.city) = false) :
    sort_folder_by_date req fs =
      (Except.error ⟨500, "Failed to sort folder: 404: Folder not found"⟩,
        fs) := by
  unfold sort_folder_by_date
  simp only [h]
  rfl

theorem sort_folder_missing_folder_reports_500_witness :
    sort_folder_by_date ⟨"France", "Paris", 2023⟩ fsEmpty =
      (Except.error ⟨500, "Failed to sort folder: 404: Folder not found"⟩,
        fsEmpty) :=
  sort_folder_missing_folder_reports_500 ⟨"France", "Paris", 2023⟩ fsEmpty rfl

/-- C4: the spec demands 404 when the file named by GET /api/serve-image
does not exist.  As in the sort handler, the raised
`HTTPException(404, "Image not found")` is caught by the handler's own
`except Exception` clause and replaced with a 500. -/
theorem serve_image_missing_file_reports_500
    (year : Int) (country city filename : String) (fs : FS)
    (h : fs.pathExists (resolvePath year country city ++ [filename]) = false) :
    serve_image year country city filename fs =
      Except.error ⟨500, "Failed to serve image: 404: Image not found"⟩ := by
  unfold serve_image
  simp only [h]
  rfl

theorem serve_image_missing_file_reports_500_witness :
    serve_image 2023 "France" "Paris" "x.jpg" fsEmpty =
      Except.error ⟨500, "Failed to serve image: 404: Image not found"⟩ :=
  serve_image_missing_file_reports_500 2023 "France" "Paris" "x.jpg" fsEmpty rfl

/-- C8: for every (year, country, city) whose location folder does not
exist, GET /api/get-images returns an empty list, not an error. -/
theorem get_images_absent_empty
    (year : Int) (country city : String) (fs : FS)
    (h : fs.pathExists (resolvePath year country city) = false) :
    get_images year country city fs = Except.ok [] := by
  unfold get_images viewFolder
  simp only [h]
  rfl

theorem get_images_absent_empty_witness :
    get_images 2023 "France" "Paris" fsEmpty = Except.ok [] :=
  get_images_absent_empty 2023 "France" "Paris" fsEmpty rfl

/-- C7: listAllPins returns an empty collection when the storage root does
not exist or is empty; it skips first-level directories with non-numeric
names (the `static` tree in `fsPins` yields no pin); for each
year/country/city directory it produces exactly one pin with id
`country_city_year` (spaces replaced by underscores), lat/lng fixed at 0,
the year parsed from the first-level name, and imageCount the number of
regular files directly inside the city directory (`2023/France/Paris` with
5 files yields exactly one pin with imageCount 5). -/
theorem listAllPins_spec :
    (∀ fs : FS, fs.pathExists [] = false → get_all_pins_core fs = []) ∧
    get_all_pins_core fsRootOnly = [] ∧
    get_all_pins_core fsPins =
      [⟨"France_Paris_2023", "France", "Paris", 0, 0, 2023, 5⟩] ∧
    get_all_pins_core fsPinsSpace =
      [⟨"New_Zealand_Wellington_2024", "New Zealand", "Wellington", 0, 0,
        2024, 0⟩] := by
  refine ⟨fun fs h => ?_, by decide, by decide, by decide⟩
  unfold get_all_pins_core
  simp only [h]
  rfl

theorem listAllPins_spec_witness : get_all_pins_core fsEmpty = [] :=
  listAllPins_spec.1 fsEmpty rfl

/-- C6: for every existing location folder, listImages returns only regular
files whose (case-insensitively lowered) extension is an allowed image
extension, while the pin walk counts all regular files of the folder: on a
folder containing exactly `a.txt` and `b.jpg`, listImages returns the one
entry `b.jpg` while the pin for the folder reports imageCount 2. -/
theorem viewFolder_filters_pins_count_all :
    (∀ (fs : FS) (country city : String) (year : Int),
      (viewFolder country city year fs).all (fun e =>
        fs.isFile (resolvePath year country city ++ [e.name]) &&
        imageExts.contains (pyLower (pySuffix e.name))) = true) ∧
    viewFolder "France" "Paris" 2023 fsMixed =
      [⟨"b.jpg", "b.jpg", "/api/serve-image/2023/France/Paris/b.jpg", 2023,
        "Paris", 200, 7⟩] ∧
    get_all_pins_core fsMixed =
      [⟨"France_Paris_2023", "France", "Paris", 0, 0, 2023, 2⟩] := by
  refine ⟨fun fs country city year => ?_, by decide, by decide⟩
  rw [List.all_eq_true]
  intro e he
  unfold viewFolder at he
  split at he
  · rcases List.mem_filterMap.1 he with ⟨n, _, hf⟩
    split at hf
    · rename_i hcond
      cases hf
      simpa using hcond
    · cases hf
  · cases he

/-- C9: createFolder is idempotent (running it again on its own result
changes nothing, so it succeeds silently when the chain already exists),
and when the location folder has no children yet, createFolder followed
immediately by listImages on the same key returns an empty sequence. -/
theorem createFolder_then_listImages_empty :
    (∀ (fs : FS) (country city : String) (year : Int),
      makeFolder country city year (makeFolder country city year fs).1 =
        makeFolder country city year fs) ∧
    (∀ (fs : FS) (country city : String) (year : Int),
      fs.iterdir (resolvePath year country city) = [] →
      viewFolder country city year (makeFolder country city year fs).1 = []) := by
  constructor
  · intro fs country city year
    unfold makeFolder
    rw [mkdirParents_idem]
  · intro fs country city year h
    have hiter : ((makeFolder country city year fs).1).iterdir
        (resolvePath year country city) = [] := by
      unfold makeFolder
      rw [mkdirParents_iterdir]
      exact h
    unfold viewFolder
    split
    · rw [hiter]
      rfl
    · rfl

theorem createFolder_then_listImages_empty_witness :
    viewFolder "France" "Paris" 2023
      (makeFolder "France" "Paris" 2023 fsEmpty).1 = [] :=
  createFolder_then_listImages_empty.2 fsEmpty "France" "Paris" 2023 rfl

/-- C5: sortDate on an existing directory orders its regular files by
modification time ascending and renames them with 1-based 3-digit position
prefixes: the 3 files of `fsSort3` (iterated as c, a, b but with mtimes 30,
10, 20) become `001_a.jpg`, `002_b.jpg`, `003_c.jpg` with mtimes preserved.
A file is skipped iff its name already starts with the exact target prefix
of its assigned position (the general iff on `sortStep`); hence the files
`001_x.jpg`/`002_y.jpg` of `fsSortPrefixed`, assigned the opposite
positions, are not recognized and receive a second prefix
(`001_002_y.jpg`, `002_001_x.jpg`).  A rename collision inserts
`_{counter}` between the numeric prefix and the original name, counter
starting at 1: in `fsSortCollide` the name `001_a.jpg` is taken, so
`a.jpg` becomes `001_1_a.jpg`. -/
theorem sortDate_spec :
    sortDate fsSort3 ["d"] = Except.ok ⟨[(["d"], FEntry.dir),
      (["d", "001_a.jpg"], FEntry.file 10 1),
      (["d", "002_b.jpg"], FEntry.file 20 2),
      (["d", "003_c.jpg"], FEntry.file 30 3)]⟩ ∧
    (∀ (path : List String) (i : Nat) (fs : FS) (name : String) (t s : Nat),
      fs.lookup (path ++ [name]) = some (FEntry.file t s) →
      (sortStep path i fs name = fs ↔
        pyStartswith name (pad3 (i + 1) ++ "_") = true)) ∧
    sortDate fsSortPrefixed ["d"] = Except.ok ⟨[(["d"], FEntry.dir),
      (["d", "001_002_y.jpg"], FEntry.file 10 1),
      (["d", "002_001_x.jpg"], FEntry.file 20 1)]⟩ ∧
    sortDate fsSortCollide ["d"] = Except.ok ⟨[(["d"], FEntry.dir),
      (["d", "001_1_a.jpg"], FEntry.file 10 1),
      (["d", "002_001_a.jpg"], FEntry.file 20 1)]⟩ := by
  refine ⟨by rfl, fun path i fs name t s hl => ?_, by rfl, by rfl⟩
  constructor
  · intro hstep
    by_contra hpre
    rw [Bool.not_eq_true] at hpre
    obtain ⟨v, hv⟩ := freshName_shape fs path (i + 1) name
    have hnev : name ≠ pad3 (i + 1) ++ "_" ++ v := by
      intro heq
      subst heq
      rw [pyStartswith_append (pad3 (i + 1) ++ "_") v] at hpre
      simp at hpre
    have hstep' : sortStep path i fs name =
        fs.rename (path ++ [name])
          (path ++ [freshName fs path (i + 1) name]) := by
      unfold sortStep
      rw [hpre]
      simp
    have hneq : path ++ [freshName fs path (i + 1) name] ≠ path ++ [name] := by
      rw [hv]
      intro heq
      have h2 := List.append_cancel_left heq
      injection h2 with h3
      exact hnev h3.symm
    have hnone := lookup_rename_old fs (path ++ [name])
      (path ++ [freshName fs path (i + 1) name]) (FEntry.file t s) hl hneq
    rw [← hstep', hstep, hl] at hnone
    cases hnone
  · intro hpre
    unfold sortStep
    rw [hpre]
    simp

theorem sortDate_spec_witness :
    sortStep ["d"] 0 fsSortPrefixed "001_x.jpg" = fsSortPrefixed :=
  (sortDate_spec.2.1 ["d"] 0 fsSortPrefixed "001_x.jpg" 20 1 (by decide)).mpr
    (by decide)

/-- C10: per the spec, moving a file onto a same-named destination file
renames the moved file with a `_1` suffix before its extension and both
files coexist.  The endpoint can never do this: at the failing input (a
move of `pic.jpg` whose source exists and whose destination already holds
a `pic.jpg`) the handler returns 500 and moves nothing (first conjunct),
because the 5-argument call to the 3-parameter `moveFolder` dies before
its body - and the body itself would die on `str.exists()`.  The conflict
policy that the claim describes is exactly what the (unreachable) body,
lines 328-342, computes when its destination is a Path: the second
conjunct shows it would store the moved file as `pic_1.jpg` (keeping its
mtime and size) next to the destination's own `pic.jpg`, removing it from
the source. -/
theorem move_conflict_policy_unreachable :
    move_image ⟨"pic.jpg", "Italy", "Rome", 2024, "/content/2023/Italy/Rome"⟩
        fsMoveConflict =
      (Except.error ⟨500, "Failed to move image: " ++ typeErrorDetail⟩,
        fsMoveConflict) ∧
    moveFolderPathDest "pic.jpg" ["2024", "Italy", "Rome"]
        ["2023", "Italy", "Rome"] fsMoveConflict =
      (Except.ok (), ⟨[([], FEntry.dir),
        (["2023"], FEntry.dir), (["2023", "Italy"], FEntry.dir),
        (["2023", "Italy", "Rome"], FEntry.dir),
        (["2024"], FEntry.dir), (["2024", "Italy"], FEntry.dir),
        (["2024", "Italy", "Rome"], FEntry.dir),
        (["2024", "Italy", "Rome", "pic.jpg"], FEntry.file 20 222),
        (["2024", "Italy", "Rome", "pic_1.jpg"], FEntry.file 10 111)]⟩) :=
  ⟨rfl, by rfl⟩

end MemoryAtlas
